import Mathlib

/-!
Shallow embedding of the `ai-ui-ai` crate of PossumXI/Asgard_Arobi
(files `claude.rs`, `lib.rs`, `ollama.rs`, `mcp.rs`), together with
theorems checking the design document's claims about it.

External effects (HTTP transport, environment variables, the OS keyring,
the filesystem, the TOML parser) are passed in explicitly as parameters,
so every embedded operation is a pure function of its inputs and of the
behaviour of those effects.
-/

namespace AsgardArobi

/-- A minimal JSON value, standing in for `serde_json::Value`. -/
inductive JsonValue where
  | null
  | bool (b : Bool)
  | num (n : Int)
  | str (s : String)
  | arr (xs : List JsonValue)
  | obj (fields : List (String × JsonValue))

/-- `serde_json::Value` indexing `v["k"]`: on an object, the value bound to
the first occurrence of the key, `Null` when absent; `Null` on any
non-object (serde_json's `Index` never panics). -/
def JsonValue.index (v : JsonValue) (k : String) : JsonValue :=
  match v with
  | .obj fields =>
    match fields.lookup k with
    | some x => x
    | none => .null
  | _ => .null

/-- `serde_json::Value::as_str`. -/
def JsonValue.asStr : JsonValue → Option String
  | .str s => some s
  | _ => none

/-- `AiError` from `lib.rs`. `Network` carries no payload here: the wrapped
`reqwest::Error` only matters for display. -/
inductive AiError where
  | NoApiKey
  | RateLimited
  | Network
  | ApiError (status : Nat) (message : String)
  | NoBackend
deriving DecidableEq, Repr

/-- `Message` from `claude.rs` (`content` is a `serde_json::Value`). -/
structure Message where
  role : String
  content : JsonValue

/-- `ContentBlock` from `claude.rs`. -/
inductive ContentBlock where
  | Text (text : String)
  | ToolUse (id : String) (name : String) (input : JsonValue)
  | ToolResult (tool_use_id : String) (content : String)

/-- `Usage` from `claude.rs`. -/
structure Usage where
  input_tokens : Nat
  output_tokens : Nat

/-- `MessageResponse` from `claude.rs` (the spec's `BackendReply`). -/
structure MessageResponse where
  id : String
  content : List ContentBlock
  stop_reason : Option String
  usage : Usage

/-- `Tool` from `claude.rs` (the spec's `ToolDefinition`). -/
structure Tool where
  name : String
  description : String
  input_schema : JsonValue

/-- `MessageRequest` from `claude.rs`: the serialized body of a buffered
POST exchange. -/
structure MessageRequest where
  model : String
  max_tokens : Nat
  system : Option String
  messages : List Message
  stream : Option Bool
  tools : Option (List Tool)

/-- The outcome of one HTTP POST exchange, as `send`/`send_with_tools`
observe it: either the transport fails (`reqwest::Error`, converted by `?`
into `AiError::Network`), or a response arrives with a status code, the
body text (`resp.text().await.unwrap_or_default()`), and — relevant only
on success statuses — the result of parsing the body as a
`MessageResponse` (`none` models `resp.json()` failing). -/
inductive HttpResult where
  | transportError
  | response (status : Nat) (bodyText : String) (parsed : Option MessageResponse)

/-- `reqwest::StatusCode::is_success`: 200 ≤ status ≤ 299. -/
def statusIsSuccess (status : Nat) : Bool :=
  200 ≤ status && status < 300

/-- `ClaudeClient` from `claude.rs` (the runtime `reqwest::Client` handle is
omitted; the transport is a parameter of each operation instead). -/
structure ClaudeClient where
  api_key : String
  model : String
  system_prompt : Option String

/-- `ClaudeClient::new`. -/
def ClaudeClient.new (api_key : String) : ClaudeClient :=
  { api_key := api_key
    model := "claude-sonnet-4-5-20250929"
    system_prompt := some
      "You are an AI assistant integrated into a desktop shell. Help users launch apps, manage files, answer questions, and control their system. Be concise and actionable." }

/-- `ClaudeClient::with_model`. -/
def ClaudeClient.with_model (c : ClaudeClient) (model : String) : ClaudeClient :=
  { c with model := model }

/-- `ClaudeClient::with_system_prompt`. -/
def ClaudeClient.with_system_prompt (c : ClaudeClient) (prompt : String) : ClaudeClient :=
  { c with system_prompt := some prompt }

/-- The request body `ClaudeClient::send` builds. -/
def ClaudeClient.buildSendRequest (c : ClaudeClient) (messages : List Message) :
    MessageRequest :=
  { model := c.model
    max_tokens := 4096
    system := c.system_prompt
    messages := messages
    stream := none
    tools := none }

/-- The request body `ClaudeClient::send_with_tools` builds: same as
`send`'s, plus `tools: Some(tools)`. -/
def ClaudeClient.buildSendWithToolsRequest (c : ClaudeClient) (messages : List Message)
    (tools : List Tool) : MessageRequest :=
  { model := c.model
    max_tokens := 4096
    system := c.system_prompt
    messages := messages
    stream := none
    tools := some tools }

/-- `ClaudeClient::send`, as a function of the transport's behaviour on the
built request. Mirrors the source: transport failure propagates via `?` as
`Network`; on a non-success status, 429 becomes `RateLimited` and anything
else `ApiError {status, message: body text}`; on success the body is parsed,
a parse failure propagating via `?` as `Network`. -/
def ClaudeClient.send (c : ClaudeClient) (messages : List Message)
    (transport : MessageRequest → HttpResult) : Except AiError MessageResponse :=
  match transport (c.buildSendRequest messages) with
  | .transportError => .error .Network
  | .response status bodyText parsed =>
    if !(statusIsSuccess status) then
      if status == 429 then
        .error .RateLimited
      else
        .error (.ApiError status bodyText)
    else
      match parsed with
      | some r => .ok r
      | none => .error .Network

/-- `ClaudeClient::send_with_tools`: the source duplicates `send`'s body,
differing only in `tools: Some(tools)`; the duplication is kept here so the
equivalence with `send` is a theorem, not a definition. -/
def ClaudeClient.send_with_tools (c : ClaudeClient) (messages : List Message)
    (tools : List Tool) (transport : MessageRequest → HttpResult) :
    Except AiError MessageResponse :=
  match transport (c.buildSendWithToolsRequest messages tools) with
  | .transportError => .error .Network
  | .response status bodyText parsed =>
    if !(statusIsSuccess status) then
      if status == 429 then
        .error .RateLimited
      else
        .error (.ApiError status bodyText)
    else
      match parsed with
      | some r => .ok r
      | none => .error .Network

/-- One item of the server-push event sequence as `ClaudeClient::stream`'s
loop observes it: `Ok(Event::Message(msg))` with the event name and the
result of `serde_json::from_str` on `msg.data` (`none` models a parse
failure), `Ok(Event::Open)`, or `Err(_)` (any transport-level error). -/
inductive StreamEvent where
  | message (event : String) (data : Option JsonValue)
  | opened
  | transportError

/-- The event loop of `ClaudeClient::stream`, returning the fragments
passed to `on_chunk` in order, paired with the value the function returns
after the loop. Mirrors the source: a `content_block_delta` event whose
data parses and holds a string at `delta.text` yields one callback;
`message_stop` closes and breaks; unknown names and `Open` are ignored;
`Err(_)` closes and breaks — and the function then returns `Ok(())`. -/
def streamLoop : List StreamEvent → List String × Except AiError Unit
  | [] => ([], .ok ())
  | e :: rest =>
    match e with
    | .message name data =>
      if name = "content_block_delta" then
        match data with
        | some v =>
          match ((v.index "delta").index "text").asStr with
          | some text =>
            let r := streamLoop rest
            (text :: r.1, r.2)
          | none => streamLoop rest
        | none => streamLoop rest
      else if name = "message_stop" then
        ([], .ok ())
      else
        streamLoop rest
    | .opened => streamLoop rest
    | .transportError => ([], .ok ())

/-- `ClaudeClient::stream`, as a function of whether `EventSource::new`
succeeds (`connect`, an `Err e` becoming `ApiError {status: 0, message: e}`)
and of the scripted event sequence. Returns the fragments delivered to
`on_chunk` in order, and the operation's result. -/
def ClaudeClient.stream (_c : ClaudeClient) (connect : Except String Unit)
    (events : List StreamEvent) : List String × Except AiError Unit :=
  match connect with
  | .error e => ([], .error (.ApiError 0 e))
  | .ok _ => streamLoop events

/-- A scripted `content_block_delta` event whose payload carries `fragment`
at `delta.text`, as the real wire protocol does. -/
def deltaEvent (fragment : String) : StreamEvent :=
  .message "content_block_delta"
    (some (.obj [("type", .str "content_block_delta"),
                 ("delta", .obj [("type", .str "text_delta"), ("text", .str fragment)])]))

/-- A scripted `message_stop` event. -/
def stopEvent : StreamEvent :=
  .message "message_stop" (some (.obj [("type", .str "message_stop")]))

/-- The single user turn `generate_response` builds from the prompt. -/
def userTurn (prompt : String) : Message :=
  { role := "user", content := .str prompt }

/-- The observable backend interactions `generate_response` performs, in
order: the primary (Claude) send, the local-backend reachability probe
(`is_ollama_running`), and the local `ollama::generate` call. -/
inductive BackendAction where
  | primarySend (messages : List Message)
  | localProbe
  | localGenerate (prompt : String)

/-- The environment `generate_response` runs against: the HTTP transport
the Claude client uses, the result of the Ollama reachability probe, and
the behaviour of `ollama::generate`. -/
structure AiEnv where
  transport : MessageRequest → HttpResult
  ollamaRunning : Bool
  ollamaGenerate : String → Except AiError String

/-- The first `Text` content block's text, if any — the `for`/`if let` loop
in `generate_response` over `resp.content`. -/
def firstText : List ContentBlock → Option String
  | [] => none
  | .Text text :: _ => some text
  | _ :: rest => firstText rest

/-- The fallback tail of `generate_response`: probe Ollama; if running,
return `ollama::generate(prompt)` verbatim; otherwise `Err(NoBackend)`.
`acts` are the actions already performed. -/
def fallbackStep (prompt : String) (env : AiEnv) (acts : List BackendAction) :
    List BackendAction × Except AiError String :=
  if env.ollamaRunning then
    (acts ++ [.localProbe, .localGenerate prompt], env.ollamaGenerate prompt)
  else
    (acts ++ [.localProbe], .error .NoBackend)

/-- `generate_response` from `lib.rs`, also returning the ordered list of
backend interactions it performed. With a key: build a `ClaudeClient`,
`send` a single user turn; on `Ok`, return the first `Text` block's text if
one exists; otherwise (no `Text` block, or any error, which is only logged)
fall through to the Ollama fallback. -/
def generate_response (prompt : String) (claude_key : Option String) (env : AiEnv) :
    List BackendAction × Except AiError String :=
  match claude_key with
  | some key =>
    let client := ClaudeClient.new key
    match client.send [userTurn prompt] env.transport with
    | .ok resp =>
      match firstText resp.content with
      | some text => ([.primarySend [userTurn prompt]], .ok text)
      | none => fallbackStep prompt env [.primarySend [userTurn prompt]]
    | .error _ => fallbackStep prompt env [.primarySend [userTurn prompt]]
  | none => fallbackStep prompt env []

/-- A minimal TOML value, standing in for `toml::Value`. Unlike
`serde_json::Value` it has no null variant, which is why `toml`'s `Index`
panics on a missing key. -/
inductive TomlValue where
  | bool (b : Bool)
  | int (n : Int)
  | str (s : String)
  | arr (xs : List TomlValue)
  | table (fields : List (String × TomlValue))

/-- `toml::Value::get` with a string key: a lookup on a table, `none` on a
non-table. -/
def TomlValue.get (v : TomlValue) (k : String) : Option TomlValue :=
  match v with
  | .table fields => fields.lookup k
  | _ => none

/-- `toml::Value::as_str`. -/
def TomlValue.asStr : TomlValue → Option String
  | .str s => some s
  | _ => none

/-- The environment `load_api_key` reads: the env var
(`std::env::var("ANTHROPIC_API_KEY")`, `none` = unset/error), the keyring
(`none` = `Entry::new` failed, `some none` = `get_password` failed,
`some (some k)` = key held), `dirs::config_dir()` availability, the config
file's content if readable, and the TOML parser's behaviour on content
(`none` = parse error). -/
structure KeyEnv where
  envVar : Option String
  keyringEntry : Option (Option String)
  configDir : Bool
  configRead : Option String
  tomlParse : String → Option TomlValue

/-- The outcome of `load_api_key`: a key, `None`, or a panic. The panic
case arises from `config["api"]["anthropic_key"]`: `toml::Value`'s `Index`
impl is `self.get(index).expect("index not found")`, so a config file that
parses but lacks the path panics instead of returning. -/
inductive LoadKeyResult where
  | found (key : String)
  | notFound
  | crashed
deriving DecidableEq, Repr

/-- `load_api_key` from `lib.rs`: env var, then keyring, then
`~/.config/ai-ui/config.toml`'s `api.anthropic_key`, first success wins.
`?`/`.ok()?` failures on `config_dir`, file read and parse return `None`;
the TOML index panics on a missing `api` or `anthropic_key` key; `as_str`
on a present non-string value gives `None`. -/
def load_api_key (env : KeyEnv) : LoadKeyResult :=
  match env.envVar with
  | some key => .found key
  | none =>
    match env.keyringEntry with
    | some (some key) => .found key
    | _ =>
      if !env.configDir then .notFound
      else
        match env.configRead with
        | none => .notFound
        | some content =>
          match env.tomlParse content with
          | none => .notFound
          | some config =>
            match config.get "api" with
            | none => .crashed
            | some api =>
              match api.get "anthropic_key" with
              | none => .crashed
              | some v =>
                match v.asStr with
                | some s => .found s
                | none => .notFound

/-- `McpServerConfig` from `mcp.rs` (the spec's `ToolProviderConfig`). -/
structure McpServerConfig where
  name : String
  command : String
  args : List String
  enabled : Bool

/-- The environment `load_mcp_configs` reads: `dirs::config_dir()`
availability, the `mcp-servers.toml` file's content if readable, and the
TOML parser's behaviour on content — `toml::from_str::<McpConfig>`, whose
success yields the `servers` list (empty when the field is absent, via
`#[serde(default)]`). -/
structure McpEnv where
  configDir : Bool
  fileRead : Option String
  tomlParse : String → Option (List McpServerConfig)

/-- `load_mcp_configs` from `mcp.rs`: no config dir, unreadable file, or
parse failure each yield the empty list; a parsed file yields its `servers`
records. -/
def load_mcp_configs (env : McpEnv) : List McpServerConfig :=
  if !env.configDir then []
  else
    match env.fileRead with
    | none => []
    | some content =>
      match env.tomlParse content with
      | none => []
      | some servers => servers

/-! ## Shared concrete instances and helper lemmas -/

/-- A concrete client for instantiating theorems. -/
def testClient : ClaudeClient := ClaudeClient.new "test-key"

/-- A sample parsed backend reply. -/
def sampleResp : MessageResponse :=
  { id := "msg_01", content := [.Text "hello"], stop_reason := some "end_turn"
    usage := { input_tokens := 3, output_tokens := 5 } }

/-- The stream loop delivers a block of delta fragments in order and then
continues with the rest of the event sequence. -/
theorem streamLoop_delta_append (fs : List String) (rest : List StreamEvent) :
    streamLoop (fs.map deltaEvent ++ rest)
      = (fs ++ (streamLoop rest).1, (streamLoop rest).2) := by
  induction fs with
  | nil => simp [streamLoop]
  | cons f fs ih =>
    simp [deltaEvent, streamLoop, JsonValue.index, JsonValue.asStr, List.lookup, ih]

/-! ## Claims -/

/-- C1, counterexample: with two delta fragments followed by a transport
error, the callback runs exactly twice, but `stream` returns `Ok(())` —
not an error of the `Network` class as the claim states: the `Err(_)` arm
of the event loop only closes the source and breaks, and the function then
returns `Ok(())`. -/
theorem stream_transport_error_returns_ok_counterexample :
    testClient.stream (.ok ()) [deltaEvent "Hel", deltaEvent "lo ", .transportError]
        = (["Hel", "lo "], .ok ())
      ∧ (testClient.stream (.ok ()) [deltaEvent "Hel", deltaEvent "lo ", .transportError]).2
        ≠ Except.error AiError.Network := by
  refine ⟨by rfl, fun h => Except.noConfusion h⟩

/-- C1, amended: for every sequence of delivered delta fragments followed
by a transport-level error, `stream` invokes `on_chunk` exactly once per
fragment already delivered, in order, retracting none — and then returns
success (`Ok(())`), silently swallowing the transport error rather than
surfacing a `Network`-class error. -/
theorem stream_deltas_then_transport_error (c : ClaudeClient) (fs : List String) :
    c.stream (.ok ()) (fs.map deltaEvent ++ [.transportError]) = (fs, .ok ()) := by
  simp [ClaudeClient.stream, streamLoop_delta_append, streamLoop]

/-- C4: for every event sequence of delta fragments followed by
`message_stop`, `stream` invokes the callback exactly once per fragment in
arrival order and terminates successfully; events with unrecognized names
are ignored; in particular, for the fragments "Hel", "lo ", "world"
followed by `message_stop` the callback runs exactly three times in that
order and the result is success. -/
theorem stream_deltas_then_stop_success (c : ClaudeClient) :
    (∀ fs : List String,
        c.stream (.ok ()) (fs.map deltaEvent ++ [stopEvent]) = (fs, .ok ()))
      ∧ (∀ name data rest, name ≠ "content_block_delta" → name ≠ "message_stop" →
          streamLoop (.message name data :: rest) = streamLoop rest)
      ∧ c.stream (.ok ()) [deltaEvent "Hel", deltaEvent "lo ", deltaEvent "world", stopEvent]
          = (["Hel", "lo ", "world"], .ok ()) := by
  refine ⟨fun fs => ?_, fun name data rest h1 h2 => ?_, by rfl⟩
  · simp [ClaudeClient.stream, streamLoop_delta_append, streamLoop, stopEvent]
  · simp [streamLoop, h1, h2]

/-- C4, witness: an event with the unrecognized name "ping" is ignored by
the stream loop. -/
theorem stream_deltas_then_stop_success_witness :
    streamLoop [.message "ping" none] = streamLoop [] :=
  (stream_deltas_then_stop_success testClient).2.1 "ping" none [] (by decide) (by decide)

/-- Two tool definitions sharing the name "launch_app". -/
def dupTool1 : Tool :=
  { name := "launch_app", description := "first", input_schema := .obj [] }

/-- A second tool definition with the same name as `dupTool1`. -/
def dupTool2 : Tool :=
  { name := "launch_app", description := "second", input_schema := .obj [] }

/-- A transport that succeeds only when the request it receives carries at
least two tools whose first two entries share a name — so a successful
outcome proves a duplicate-named list was actually transmitted. -/
def dupProbeTransport : MessageRequest → HttpResult := fun req =>
  match req.tools with
  | some (a :: b :: _) =>
    if a.name = b.name then .response 200 "" (some sampleResp) else .transportError
  | _ => .transportError

/-- C6: `send`'s outcome classification — transport failure yields
`Network`; status 429 yields `RateLimited`; any other non-success status
yields `ApiError` with that status and the body text; a success status with
a parsed body yields the reply; a success status whose body fails to parse
yields `Network`, never success. -/
theorem send_classification (c : ClaudeClient) (msgs : List Message)
    (t : MessageRequest → HttpResult) :
    (t (c.buildSendRequest msgs) = .transportError → c.send msgs t = .error .Network)
      ∧ (∀ body parsed, t (c.buildSendRequest msgs) = .response 429 body parsed →
          c.send msgs t = .error .RateLimited)
      ∧ (∀ status body parsed, t (c.buildSendRequest msgs) = .response status body parsed →
          statusIsSuccess status = false → status ≠ 429 →
          c.send msgs t = .error (.ApiError status body))
      ∧ (∀ status body r, t (c.buildSendRequest msgs) = .response status body (some r) →
          statusIsSuccess status = true → c.send msgs t = .ok r)
      ∧ (∀ status body, t (c.buildSendRequest msgs) = .response status body none →
          statusIsSuccess status = true → c.send msgs t = .error .Network) := by
  refine ⟨fun h => ?_, fun body parsed h => ?_, fun status body parsed h hs h429 => ?_,
    fun status body r h hs => ?_, fun status body h hs => ?_⟩
  · simp [ClaudeClient.send, h]
  · simp [ClaudeClient.send, h, statusIsSuccess]
  · simp [ClaudeClient.send, h, hs, h429]
  · simp [ClaudeClient.send, h, hs]
  · simp [ClaudeClient.send, h, hs]

/-- C6, witness: the five classification cases at concrete transports. -/
theorem send_classification_witness :
    testClient.send [userTurn "hi"] (fun _ => .transportError) = .error .Network
      ∧ testClient.send [userTurn "hi"] (fun _ => .response 429 "slow down" none)
        = .error .RateLimited
      ∧ testClient.send [userTurn "hi"] (fun _ => .response 401 "bad key" none)
        = .error (.ApiError 401 "bad key")
      ∧ testClient.send [userTurn "hi"] (fun _ => .response 200 "" (some sampleResp))
        = .ok sampleResp
      ∧ testClient.send [userTurn "hi"] (fun _ => .response 200 "garbage" none)
        = .error .Network :=
  ⟨(send_classification testClient [userTurn "hi"] (fun _ => .transportError)).1 rfl,
   (send_classification testClient [userTurn "hi"]
      (fun _ => .response 429 "slow down" none)).2.1 "slow down" none rfl,
   (send_classification testClient [userTurn "hi"]
      (fun _ => .response 401 "bad key" none)).2.2.1 401 "bad key" none rfl
      (by decide) (by decide),
   (send_classification testClient [userTurn "hi"]
      (fun _ => .response 200 "" (some sampleResp))).2.2.2.1 200 "" sampleResp rfl (by decide),
   (send_classification testClient [userTurn "hi"]
      (fun _ => .response 200 "garbage" none)).2.2.2.2 200 "garbage" rfl (by decide)⟩

/-- C7, counterexample: a tool list with two same-named entries is NOT
detected as invalid: `send_with_tools` transmits it unchanged. The probing
transport here answers success only to a request whose tool list leads with
two entries sharing a name, and the call returns that success — so the
duplicate-carrying request was sent, contradicting "never transmitted". -/
theorem send_with_tools_duplicates_transmitted_counterexample :
    dupTool1.name = dupTool2.name
      ∧ testClient.send_with_tools [userTurn "hi"] [dupTool1, dupTool2] dupProbeTransport
        = .ok sampleResp :=
  ⟨rfl, by rfl⟩

/-- C7, amended: `send_with_tools` performs no duplicate-name validation:
a tool list whose first two entries share a name is attached to the request
verbatim and the exchange proceeds exactly as `send` would with that
request — no invalidity detection happens before sending. -/
theorem send_with_tools_no_duplicate_validation (c : ClaudeClient) (msgs : List Message)
    (t1 t2 : Tool) (rest : List Tool) (_hdup : t1.name = t2.name)
    (t : MessageRequest → HttpResult) :
    (c.buildSendWithToolsRequest msgs (t1 :: t2 :: rest)).tools = some (t1 :: t2 :: rest)
      ∧ c.send_with_tools msgs (t1 :: t2 :: rest) t
        = c.send msgs (fun req => t { req with tools := some (t1 :: t2 :: rest) }) :=
  ⟨rfl, rfl⟩

/-- C7, witness: the amended statement at the concrete duplicate pair. -/
theorem send_with_tools_no_duplicate_validation_witness :
    (testClient.buildSendWithToolsRequest [userTurn "hi"] [dupTool1, dupTool2]).tools
        = some [dupTool1, dupTool2]
      ∧ testClient.send_with_tools [userTurn "hi"] [dupTool1, dupTool2] dupProbeTransport
        = testClient.send [userTurn "hi"]
            (fun req => dupProbeTransport { req with tools := some [dupTool1, dupTool2] }) :=
  send_with_tools_no_duplicate_validation testClient [userTurn "hi"] dupTool1 dupTool2 []
    rfl dupProbeTransport

/-- C8: `send_with_tools` builds and classifies exactly what `send` would,
except that the transmitted request additionally carries the given tools:
its result equals `send`'s against a transport that sees the same request
with `tools := some tools`, and the built request is `send`'s request with
only the `tools` field changed. -/
theorem send_with_tools_refines_send (c : ClaudeClient) (msgs : List Message)
    (tools : List Tool) (t : MessageRequest → HttpResult) :
    c.send_with_tools msgs tools t
        = c.send msgs (fun req => t { req with tools := some tools })
      ∧ c.buildSendWithToolsRequest msgs tools
        = { c.buildSendRequest msgs with tools := some tools } :=
  ⟨rfl, rfl⟩

/-- An environment whose primary backend answers `sampleResp` and whose
local backend is down. -/
def envPrimaryOk : AiEnv :=
  { transport := fun _ => .response 200 "" (some sampleResp)
    ollamaRunning := false
    ollamaGenerate := fun _ => .error .NoBackend }

/-- An environment whose primary transport fails and whose local backend
is down. -/
def envPrimaryFail : AiEnv :=
  { transport := fun _ => .transportError
    ollamaRunning := false
    ollamaGenerate := fun _ => .error .NoBackend }

/-- A parsed reply holding only a tool-invocation segment, no `Text`. -/
def toolOnlyResp : MessageResponse :=
  { id := "msg_02"
    content := [.ToolUse "toolu_01" "launch_app" (.obj [("app_name", .str "editor")])]
    stop_reason := some "tool_use"
    usage := { input_tokens := 7, output_tokens := 11 } }

/-- An environment whose primary backend answers `toolOnlyResp` and whose
local backend is up and answers "local answer". -/
def envToolOnly : AiEnv :=
  { transport := fun _ => .response 200 "" (some toolOnlyResp)
    ollamaRunning := true
    ollamaGenerate := fun _ => .ok "local answer" }

/-- C2: with a credential and a primary send that succeeds with a reply
containing a `Text` segment, `generate_response` returns exactly the first
`Text` segment's text, and its only backend interaction is the primary
send — no local probe, no local generate. -/
theorem generate_response_primary_success (prompt key : String) (env : AiEnv)
    (resp : MessageResponse) (text : String)
    (hsend : (ClaudeClient.new key).send [userTurn prompt] env.transport = .ok resp)
    (htext : firstText resp.content = some text) :
    generate_response prompt (some key) env
      = ([.primarySend [userTurn prompt]], .ok text) := by
  simp [generate_response, hsend, htext]

/-- C2, witness: concrete successful primary exchange. -/
theorem generate_response_primary_success_witness :
    generate_response "hi" (some "test-key") envPrimaryOk
      = ([.primarySend [userTurn "hi"]], .ok "hello") :=
  generate_response_primary_success "hi" "test-key" envPrimaryOk sampleResp "hello" rfl rfl

/-- C3: with a credential, any primary-send error whatsoever is not
propagated: `generate_response` falls through to the local backend, and
when the local probe reports unavailable it returns `NoBackend`. -/
theorem generate_response_fallback_no_backend (prompt key : String) (env : AiEnv)
    (e : AiError)
    (hsend : (ClaudeClient.new key).send [userTurn prompt] env.transport = .error e)
    (hdown : env.ollamaRunning = false) :
    generate_response prompt (some key) env
      = ([.primarySend [userTurn prompt], .localProbe], .error .NoBackend) := by
  simp [generate_response, hsend, fallbackStep, hdown]

/-- C3, witness: a transport failure on the primary with the local backend
down yields `NoBackend`. -/
theorem generate_response_fallback_no_backend_witness :
    generate_response "hi" (some "test-key") envPrimaryFail
      = ([.primarySend [userTurn "hi"], .localProbe], .error .NoBackend) :=
  generate_response_fallback_no_backend "hi" "test-key" envPrimaryFail .Network rfl rfl

/-- C10: with a credential and a primary send that succeeds but whose
reply contains no `Text` segment, `generate_response` returns nothing
derived from that reply: it proceeds exactly as on a primary failure —
probing the local backend, delegating to it when available, and returning
`NoBackend` otherwise. -/
theorem generate_response_no_text_falls_back (prompt key : String) (env : AiEnv)
    (resp : MessageResponse)
    (hsend : (ClaudeClient.new key).send [userTurn prompt] env.transport = .ok resp)
    (htext : firstText resp.content = none) :
    generate_response prompt (some key) env
      = (if env.ollamaRunning then
          ([.primarySend [userTurn prompt], .localProbe, .localGenerate prompt],
            env.ollamaGenerate prompt)
        else
          ([.primarySend [userTurn prompt], .localProbe], .error .NoBackend)) := by
  simp [generate_response, hsend, htext, fallbackStep]

/-- C10, witness: a reply holding only a tool-invocation segment is
discarded and the available local backend answers instead. -/
theorem generate_response_no_text_falls_back_witness :
    generate_response "hi" (some "test-key") envToolOnly
      = ([.primarySend [userTurn "hi"], .localProbe, .localGenerate "hi"],
          .ok "local answer") :=
  generate_response_no_text_falls_back "hi" "test-key" envToolOnly toolOnlyResp rfl rfl

/-- A key environment with all three sources populated: env var "abc",
keyring "xyz", config file holding `api.anthropic_key = "cfg-key"`. -/
def keyEnvAll : KeyEnv :=
  { envVar := some "abc"
    keyringEntry := some (some "xyz")
    configDir := true
    configRead := some "[api]\nanthropic_key = \"cfg-key\""
    tomlParse := fun _ => some (.table [("api", .table [("anthropic_key", .str "cfg-key")])]) }

/-- C5, counterexample: with the env var unset, the keyring lookup failing
and a config file that parses to a table lacking the `api` key, the third
source's failure is not silently treated as "not found": `config["api"]`
goes through `toml::Value`'s `Index` impl, whose
`self.get(index).expect("index not found")` panics, so `load_api_key`
crashes instead of returning `None`. -/
theorem load_api_key_missing_field_panics_counterexample :
    load_api_key { envVar := none, keyringEntry := some none, configDir := true,
                   configRead := some "x = 1",
                   tomlParse := fun _ => some (.table [("x", .int 1)]) } = .crashed
      ∧ LoadKeyResult.crashed ≠ LoadKeyResult.notFound :=
  ⟨rfl, by decide⟩

/-- C5, amended: `load_api_key` tries env var, then keyring, then the
config file's `api.anthropic_key`, returning the first success — a set env
var wins regardless of the other sources, and with it unset a keyring hit
wins regardless of the config file. Failures of the enumerated kinds
(missing env var; keyring entry or lookup failure; undetermined config
dir; unreadable or unparseable config file) silently advance resolution,
and exhaustion yields `None`; but a config file that parses while lacking
the `api.anthropic_key` path panics instead (see the counterexample). -/
theorem load_api_key_resolution_order (env : KeyEnv) :
    (∀ k, env.envVar = some k → load_api_key env = .found k)
      ∧ (∀ k, env.envVar = none → env.keyringEntry = some (some k) →
          load_api_key env = .found k)
      ∧ (env.envVar = none → (env.keyringEntry = none ∨ env.keyringEntry = some none) →
          env.configDir = false → load_api_key env = .notFound)
      ∧ (env.envVar = none → (env.keyringEntry = none ∨ env.keyringEntry = some none) →
          env.configRead = none → load_api_key env = .notFound)
      ∧ (∀ c, env.envVar = none → (env.keyringEntry = none ∨ env.keyringEntry = some none) →
          env.configRead = some c → env.tomlParse c = none → load_api_key env = .notFound)
      ∧ (∀ c cfg api v s, env.envVar = none →
          (env.keyringEntry = none ∨ env.keyringEntry = some none) →
          env.configDir = true → env.configRead = some c → env.tomlParse c = some cfg →
          cfg.get "api" = some api → api.get "anthropic_key" = some v → v.asStr = some s →
          load_api_key env = .found s) := by
  refine ⟨fun k h => ?_, fun k h1 h2 => ?_, fun h1 h2 h3 => ?_, fun h1 h2 h3 => ?_,
    fun c h1 h2 h3 h4 => ?_, fun c cfg api v s h1 h2 h3 h4 h5 h6 h7 h8 => ?_⟩
  · simp [load_api_key, h]
  · simp [load_api_key, h1, h2]
  · rcases h2 with h2 | h2 <;> simp [load_api_key, h1, h2, h3]
  · rcases h2 with h2 | h2 <;> by_cases hd : env.configDir <;>
      simp [load_api_key, h1, h2, h3, hd]
  · rcases h2 with h2 | h2 <;> by_cases hd : env.configDir <;>
      simp [load_api_key, h1, h2, h3, h4, hd]
  · rcases h2 with h2 | h2 <;> simp [load_api_key, h1, h2, h3, h4, h5, h6, h7, h8]

/-- C5, witness: with all three sources populated the env var "abc" wins;
with the env var removed the keyring's "xyz" wins over the config file;
with both gone the config file's "cfg-key" is found. -/
theorem load_api_key_resolution_order_witness :
    load_api_key keyEnvAll = .found "abc"
      ∧ load_api_key { keyEnvAll with envVar := none } = .found "xyz"
      ∧ load_api_key { keyEnvAll with envVar := none, keyringEntry := some none }
        = .found "cfg-key" :=
  ⟨(load_api_key_resolution_order keyEnvAll).1 "abc" rfl,
   (load_api_key_resolution_order { keyEnvAll with envVar := none }).2.1 "xyz" rfl rfl,
   (load_api_key_resolution_order
      { keyEnvAll with envVar := none, keyringEntry := some none }).2.2.2.2.2
      "[api]\nanthropic_key = \"cfg-key\"" (.table [("api", .table [("anthropic_key", .str "cfg-key")])])
      (.table [("anthropic_key", .str "cfg-key")]) (.str "cfg-key") "cfg-key"
      rfl (Or.inr rfl) rfl rfl rfl rfl rfl rfl⟩

/-- An MCP config environment with a readable, parseable file holding one
server record. -/
def mcpEnvOne : McpEnv :=
  { configDir := true
    fileRead := some "[[servers]]\nname = \"files\""
    tomlParse := fun _ =>
      some [{ name := "files", command := "mcp-files", args := ["--root", "/"],
              enabled := true }] }

/-- C9: `load_mcp_configs` never fails — a missing config dir, an
unreadable file, or a parse failure each yield the empty list, and a
parsed file yields exactly its listed provider records. -/
theorem load_mcp_configs_never_fails (env : McpEnv) :
    (env.configDir = false → load_mcp_configs env = [])
      ∧ (env.fileRead = none → load_mcp_configs env = [])
      ∧ (∀ c, env.fileRead = some c → env.tomlParse c = none → load_mcp_configs env = [])
      ∧ (∀ c servers, env.configDir = true → env.fileRead = some c →
          env.tomlParse c = some servers → load_mcp_configs env = servers) := by
  refine ⟨fun h => ?_, fun h => ?_, fun c h1 h2 => ?_, fun c servers h1 h2 h3 => ?_⟩
  · simp [load_mcp_configs, h]
  · by_cases hd : env.configDir <;> simp [load_mcp_configs, h, hd]
  · by_cases hd : env.configDir <;> simp [load_mcp_configs, h1, h2, hd]
  · simp [load_mcp_configs, h1, h2, h3]

/-- C9, witness: a missing file yields the empty list, and the one-record
file yields its record. -/
theorem load_mcp_configs_never_fails_witness :
    load_mcp_configs { mcpEnvOne with fileRead := none } = []
      ∧ load_mcp_configs mcpEnvOne
        = [{ name := "files", command := "mcp-files", args := ["--root", "/"],
             enabled := true }] :=
  ⟨(load_mcp_configs_never_fails { mcpEnvOne with fileRead := none }).2.1 rfl,
   (load_mcp_configs_never_fails mcpEnvOne).2.2.2 "[[servers]]\nname = \"files\""
      [{ name := "files", command := "mcp-files", args := ["--root", "/"], enabled := true }]
      rfl rfl rfl⟩

end AsgardArobi
